import Mathlib

/-
Verification of the chain-tip detection and block-event delivery subsystem
(`teos/chain_monitor.py` and the bootstrap reconciliation in `teos/teosd.py`).

The embedding models the `ChainMonitor` object state as a Lean structure.
Block hashes are strings (Python `str`); `best_tip` is `Option String`
because it is initialized to `None`.  `last_tips` is a list that can hold
`None` (the initial `best_tip` is appended on the first accepted hash), so
its elements are `Option String`.  The internal `Queue` and the receiving
queues are modelled as lists, `put` appending at the end and `get` taking
the head (FIFO).  A ghost field `dequeued` records, in order, the hashes
the notifier thread has taken off the internal queue; it is write-only
instrumentation and no source behaviour depends on it.

Thread loop bodies (`monitor_chain_polling`, `monitor_chain_zmq`,
`notify_listeners`) are modelled as single-iteration step functions; the
data each iteration obtains from the outside world (the polled tip, the
received zmq multipart message) is a parameter of the step.  A Python
exception is an `Except.error`; an action whose body raises leaves the
object state unchanged.
-/

/-- `ChainMonitorStatus` enum from `chain_monitor.py`. -/
inductive ChainMonitorStatus where
  | IDLE
  | LISTENING
  | ACTIVE
  | TERMINATED
deriving DecidableEq, Repr

/-- `.name` of a `ChainMonitorStatus` member (Python `Enum.name`). -/
def ChainMonitorStatus.name : ChainMonitorStatus → String
  | .IDLE => "IDLE"
  | .LISTENING => "LISTENING"
  | .ACTIVE => "ACTIVE"
  | .TERMINATED => "TERMINATED"

/-- The mutable state of a `ChainMonitor` object.  `dequeued` is a ghost
history of the hashes removed from the internal queue by the notifier. -/
structure ChainMonitor where
  best_tip : Option String
  last_tips : List (Option String)
  queue : List String
  receiving_queues : List (List String)
  max_block_window_size : Nat
  status : ChainMonitorStatus
  dequeued : List String
deriving DecidableEq, Repr

/-- `ChainMonitor.__init__`: `best_tip = None`, `last_tips = []`,
`max_block_window_size = 10`, empty internal queue, `status = IDLE`. -/
def initChainMonitor (receiving_queues : List (List String)) : ChainMonitor :=
  { best_tip := none
    last_tips := []
    queue := []
    receiving_queues := receiving_queues
    max_block_window_size := 10
    status := ChainMonitorStatus.IDLE
    dequeued := [] }

/-- `ChainMonitor.notify_subscribers`: puts the hash in every receiving
queue. -/
def notify_subscribers (block_hash : String) (s : ChainMonitor) : ChainMonitor :=
  { s with receiving_queues := s.receiving_queues.map (fun q => q ++ [block_hash]) }

/-- `ChainMonitor.enqueue`: if the hash differs from `best_tip` and is not
in `last_tips`, put it in the internal queue, append the old `best_tip` to
`last_tips` (popping index 0 when the length exceeds
`max_block_window_size`), set `best_tip`, and return `True`; else return
`False`. -/
def enqueue (block_hash : String) (s : ChainMonitor) : Bool × ChainMonitor :=
  if some block_hash ≠ s.best_tip ∧ some block_hash ∉ s.last_tips then
    (true,
      { s with
        queue := s.queue ++ [block_hash]
        last_tips :=
          if (s.last_tips ++ [s.best_tip]).length > s.max_block_window_size then
            (s.last_tips ++ [s.best_tip]).tail
          else
            s.last_tips ++ [s.best_tip]
        best_tip := some block_hash })
  else
    (false, s)

/-- One iteration of the `ChainMonitor.monitor_chain_polling` loop body.
`polled` is what `block_processor.get_best_block_hash()` returned
(`none` when the RPC timed out).  The loop re-checks the status after the
wait and calls `enqueue` only when the polled tip is truthy and not in
`last_tips`. -/
def monitor_chain_polling_iteration (polled : Option String) (s : ChainMonitor) :
    ChainMonitor :=
  if s.status ≠ ChainMonitorStatus.TERMINATED then
    match polled with
    | some current_tip =>
        if current_tip ≠ "" ∧ some current_tip ∉ s.last_tips then
          (enqueue current_tip s).2
        else s
    | none => s
  else s

/-- The `b"hashblock"` topic bytes compared against `msg[0]`. -/
def hashblockTopic : List Nat := [104, 97, 115, 104, 98, 108, 111, 99, 107]

/-- One lowercase hex digit (`binascii.hexlify` output alphabet). -/
def hexDigit (n : Nat) : Char :=
  if n < 10 then Char.ofNat (48 + n) else Char.ofNat (87 + n)

/-- `binascii.hexlify(body).decode("utf-8")`: two lowercase hex digits per
byte. -/
def hexlify (body : List Nat) : String :=
  String.mk (body.flatMap (fun b => [hexDigit (b % 256 / 16), hexDigit (b % 16)]))

/-- One iteration of the `ChainMonitor.monitor_chain_zmq` loop body on a
received multipart message.  The body reads `msg[0]` and `msg[1]`
unconditionally, so a message with fewer than two parts raises an
`IndexError`, modelled as `Except.error ()`. -/
def monitor_chain_zmq_iteration (msg : List (List Nat)) (s : ChainMonitor) :
    Except Unit ChainMonitor :=
  if s.status ≠ ChainMonitorStatus.TERMINATED then
    match msg with
    | topic :: body :: _ =>
        if topic = hashblockTopic then
          let block_hash := hexlify body
          if some block_hash ∉ s.last_tips then Except.ok (enqueue block_hash s).2
          else Except.ok s
        else Except.ok s
    | _ => Except.error ()
  else Except.ok s

/-- One iteration of the `ChainMonitor.notify_listeners` loop body: while
not terminated, take the next hash off the internal queue (the timed-out
`Empty` case is a no-op) and notify the subscribers. -/
def notify_listeners_iteration (s : ChainMonitor) : ChainMonitor :=
  if s.status ≠ ChainMonitorStatus.TERMINATED then
    match s.queue with
    | block_hash :: rest =>
        notify_subscribers block_hash
          { s with queue := rest, dequeued := s.dequeued ++ [block_hash] }
    | [] => s
  else s

/-- The observable steps `ChainMonitor.monitor_chain` performs, in program
order. -/
inductive MCEvent where
  | setStatusListening
  | seedBestTip
  | startPollingThread
  | startZmqThread
deriving DecidableEq, Repr

/-- `ChainMonitor.monitor_chain`: raises a `RuntimeError` unless the status
is `IDLE`; otherwise sets `status = LISTENING`, then seeds `best_tip` from
`block_processor.get_best_block_hash()` (the `seed` parameter), then starts
the polling and zmq threads.  The returned event list records the order in
which those statements execute. -/
def monitor_chain (seed : Option String) (s : ChainMonitor) :
    Except String (ChainMonitor × List MCEvent) :=
  if s.status ≠ ChainMonitorStatus.IDLE then
    Except.error
      ("This method can only be called in IDLE status. Current status is " ++
        s.status.name ++ ".")
  else
    Except.ok
      ({ s with status := ChainMonitorStatus.LISTENING, best_tip := seed },
        [MCEvent.setStatusListening, MCEvent.seedBestTip,
          MCEvent.startPollingThread, MCEvent.startZmqThread])

/-- The event order of a `monitor_chain` call (empty if it raised). -/
def monitor_chain_trace (seed : Option String) (s : ChainMonitor) : List MCEvent :=
  match monitor_chain seed s with
  | Except.ok (_, tr) => tr
  | Except.error _ => []

/-- `ChainMonitor.activate`: raises a `RuntimeError` unless the status is
`LISTENING`; otherwise sets `status = ACTIVE` and starts the notifier
thread. -/
def activate (s : ChainMonitor) : Except String ChainMonitor :=
  if s.status ≠ ChainMonitorStatus.LISTENING then
    Except.error
      ("This method can only be called in LISTENING status. Current status is " ++
        s.status.name ++ ".")
  else
    Except.ok { s with status := ChainMonitorStatus.ACTIVE }

/-- `ChainMonitor.terminate`: sets the status to `TERMINATED`. -/
def terminate (s : ChainMonitor) : ChainMonitor :=
  { s with status := ChainMonitorStatus.TERMINATED }

/-- The operations the rest of the program performs on a `ChainMonitor`:
the three lifecycle calls and one iteration of each thread loop.  `enqueue`
itself is only reached through the two detector iterations. -/
inductive CMAction where
  | monitorChain (seed : Option String)
  | activateCall
  | terminateCall
  | pollIteration (polled : Option String)
  | zmqIteration (msg : List (List Nat))
  | notifyIteration
deriving DecidableEq, Repr

/-- The state after one operation.  A raised exception (`Except.error`)
propagates to the caller before any mutation, leaving the object as it
was. -/
def applyAction (a : CMAction) (s : ChainMonitor) : ChainMonitor :=
  match a with
  | CMAction.monitorChain seed =>
      match monitor_chain seed s with
      | Except.ok (s', _) => s'
      | Except.error _ => s
  | CMAction.activateCall =>
      match activate s with
      | Except.ok s' => s'
      | Except.error _ => s
  | CMAction.terminateCall => terminate s
  | CMAction.pollIteration polled => monitor_chain_polling_iteration polled s
  | CMAction.zmqIteration msg =>
      match monitor_chain_zmq_iteration msg s with
      | Except.ok s' => s'
      | Except.error _ => s
  | CMAction.notifyIteration => notify_listeners_iteration s

/-- Run a sequence of operations. -/
def run (s : ChainMonitor) (acts : List CMAction) : ChainMonitor :=
  acts.foldl (fun s a => applyAction a s) s

/-- Fold `enqueue` over a list of hashes, keeping only the state (used to
describe sequences of accepted tips). -/
def enqueueAll (hashes : List String) (s : ChainMonitor) : ChainMonitor :=
  hashes.foldl (fun s h => (enqueue h s).2) s

/-
Bootstrap reconciliation (`teos/teosd.py`, `TeosDaemon.bootstrap_components`,
backed-up-data branch).  The block processor is an abstract deterministic
collaborator; the `calls` field of the result logs, in program order, the
node queries the code performs, so "computed exactly once" is the log
holding a single ancestor search and a single missed-block query.
-/

/-- A node query made during bootstrap reconciliation. -/
inductive BPCall where
  | findLCA (last_block : Option String)
  | getMissed (ancestor : Option String)
deriving DecidableEq, Repr

/-- Abstract deterministic model of the `BlockProcessor` collaborator:
`find_last_common_ancestor` returns the ancestor and the dropped
transactions, `get_missed_blocks` the blocks after the ancestor. -/
structure BlockProcessorModel where
  find_last_common_ancestor : Option String → Option String × List String
  get_missed_blocks : Option String → List String

/-- Outcome of the reconciliation: per-consumer missed blocks and dropped
transactions, plus the log of node queries performed. -/
structure BootstrapResult where
  missed_blocks_watcher : List String
  dropped_txs_watcher : List String
  missed_blocks_responder : List String
  dropped_txs_responder : List String
  calls : List BPCall
deriving DecidableEq, Repr

/-- Lines 208-221 of `teosd.py`: compute the watcher's last common ancestor
and missed blocks; if the responder's persisted tip equals the watcher's,
reuse the watcher's results, otherwise repeat the two queries for the
responder. -/
def bootstrap_reconcile (bp : BlockProcessorModel)
    (last_block_watcher last_block_responder : Option String) : BootstrapResult :=
  let lca_w := (bp.find_last_common_ancestor last_block_watcher).1
  let dropped_txs_watcher := (bp.find_last_common_ancestor last_block_watcher).2
  let missed_blocks_watcher := bp.get_missed_blocks lca_w
  if last_block_watcher = last_block_responder then
    { missed_blocks_watcher := missed_blocks_watcher
      dropped_txs_watcher := dropped_txs_watcher
      missed_blocks_responder := missed_blocks_watcher
      dropped_txs_responder := dropped_txs_watcher
      calls := [BPCall.findLCA last_block_watcher, BPCall.getMissed lca_w] }
  else
    let lca_r := (bp.find_last_common_ancestor last_block_responder).1
    let dropped_txs_responder := (bp.find_last_common_ancestor last_block_responder).2
    let missed_blocks_responder := bp.get_missed_blocks lca_r
    { missed_blocks_watcher := missed_blocks_watcher
      dropped_txs_watcher := dropped_txs_watcher
      missed_blocks_responder := missed_blocks_responder
      dropped_txs_responder := dropped_txs_responder
      calls := [BPCall.findLCA last_block_watcher, BPCall.getMissed lca_w,
        BPCall.findLCA last_block_responder, BPCall.getMissed lca_r] }

/-- The order the spec claims for `monitor_chain` (seed the tip, start the
detector threads, and only then set the phase to Listening); compared
against the order the code actually executes. -/
def monitor_chain_claimed_order : List MCEvent :=
  [MCEvent.seedBestTip, MCEvent.startPollingThread,
    MCEvent.startZmqThread, MCEvent.setStatusListening]

/-- Twelve pairwise distinct sample tips, used to instantiate scenario
theorems on concrete inputs. -/
def sampleTips : Fin 12 → String := fun i =>
  ["b0", "b1", "b2", "b3", "b4", "b5", "b6", "b7", "b8", "b9", "b10", "b11"].getD i.val ""

/-! Helper lemmas about `enqueue` and the per-operation step function. -/

lemma enqueue_stale (block_hash : String) (s : ChainMonitor)
    (h : some block_hash = s.best_tip ∨ some block_hash ∈ s.last_tips) :
    enqueue block_hash s = (false, s) := by
  unfold enqueue
  rw [if_neg]
  intro hc
  rcases h with h | h
  · exact hc.1 h
  · exact hc.2 h

lemma enqueue_fresh (block_hash : String) (s : ChainMonitor)
    (h1 : some block_hash ≠ s.best_tip) (h2 : some block_hash ∉ s.last_tips) :
    enqueue block_hash s =
      (true,
        { s with
          queue := s.queue ++ [block_hash]
          last_tips :=
            if (s.last_tips ++ [s.best_tip]).length > s.max_block_window_size then
              (s.last_tips ++ [s.best_tip]).tail
            else
              s.last_tips ++ [s.best_tip]
          best_tip := some block_hash }) := by
  unfold enqueue
  rw [if_pos ⟨h1, h2⟩]

lemma enqueue_snd_receiving (block_hash : String) (s : ChainMonitor) :
    ((enqueue block_hash s).2).receiving_queues = s.receiving_queues := by
  unfold enqueue; split <;> rfl

lemma enqueue_snd_dequeued (block_hash : String) (s : ChainMonitor) :
    ((enqueue block_hash s).2).dequeued = s.dequeued := by
  unfold enqueue; split <;> rfl

lemma enqueue_snd_max (block_hash : String) (s : ChainMonitor) :
    ((enqueue block_hash s).2).max_block_window_size = s.max_block_window_size := by
  unfold enqueue; split <;> rfl

lemma enqueue_window (block_hash : String) (s : ChainMonitor)
    (hW : s.last_tips.length ≤ s.max_block_window_size) :
    ((enqueue block_hash s).2).last_tips.length ≤ s.max_block_window_size := by
  unfold enqueue
  split
  · show (if (s.last_tips ++ [s.best_tip]).length > s.max_block_window_size then
        (s.last_tips ++ [s.best_tip]).tail else s.last_tips ++ [s.best_tip]).length ≤
        s.max_block_window_size
    split
    · rename_i hgt
      simp only [List.length_tail, List.length_append, List.length_cons,
        List.length_nil] at *
      omega
    · rename_i hle
      simp only [gt_iff_lt, not_lt, List.length_append, List.length_cons,
        List.length_nil] at *
      omega
  · exact hW

lemma applyAction_monitorChain (seed : Option String) (s : ChainMonitor) :
    applyAction (CMAction.monitorChain seed) s =
      if s.status = ChainMonitorStatus.IDLE then
        { s with status := ChainMonitorStatus.LISTENING, best_tip := seed }
      else s := by
  by_cases h : s.status = ChainMonitorStatus.IDLE <;>
    simp [applyAction, monitor_chain, h]

lemma applyAction_activateCall (s : ChainMonitor) :
    applyAction CMAction.activateCall s =
      if s.status = ChainMonitorStatus.LISTENING then
        { s with status := ChainMonitorStatus.ACTIVE }
      else s := by
  by_cases h : s.status = ChainMonitorStatus.LISTENING <;>
    simp [applyAction, activate, h]

lemma applyAction_poll (polled : Option String) (s : ChainMonitor) :
    applyAction (CMAction.pollIteration polled) s =
      monitor_chain_polling_iteration polled s := rfl

lemma applyAction_notify (s : ChainMonitor) :
    applyAction CMAction.notifyIteration s = notify_listeners_iteration s := rfl

lemma poll_cases (polled : Option String) (s : ChainMonitor) :
    monitor_chain_polling_iteration polled s = s ∨
      ∃ t, monitor_chain_polling_iteration polled s = (enqueue t s).2 := by
  unfold monitor_chain_polling_iteration
  split
  · match polled with
    | none => exact Or.inl rfl
    | some t =>
        dsimp only
        split
        · exact Or.inr ⟨t, rfl⟩
        · exact Or.inl rfl
  · exact Or.inl rfl

lemma zmq_iteration_cases (msg : List (List Nat)) (s : ChainMonitor) :
    monitor_chain_zmq_iteration msg s = Except.ok s ∨
      (∃ t, monitor_chain_zmq_iteration msg s = Except.ok (enqueue t s).2) ∨
      monitor_chain_zmq_iteration msg s = Except.error () := by
  unfold monitor_chain_zmq_iteration
  split
  · match msg with
    | [] => exact Or.inr (Or.inr rfl)
    | [t] => exact Or.inr (Or.inr rfl)
    | topic :: body :: rest =>
        by_cases ht : topic = hashblockTopic
        · by_cases hm : some (hexlify body) ∉ s.last_tips
          · exact Or.inr (Or.inl ⟨hexlify body, by simp [ht, hm]⟩)
          · exact Or.inl (by simp [ht, hm])
        · exact Or.inl (by simp [ht])
  · exact Or.inl rfl

lemma zmq_cases (msg : List (List Nat)) (s : ChainMonitor) :
    applyAction (CMAction.zmqIteration msg) s = s ∨
      ∃ t, applyAction (CMAction.zmqIteration msg) s = (enqueue t s).2 := by
  have hdef : applyAction (CMAction.zmqIteration msg) s =
      (match monitor_chain_zmq_iteration msg s with
        | Except.ok s' => s'
        | Except.error _ => s) := rfl
  rcases zmq_iteration_cases msg s with h | ⟨t, h⟩ | h <;> rw [hdef, h]
  · exact Or.inl rfl
  · exact Or.inr ⟨t, rfl⟩
  · exact Or.inl rfl

lemma notify_cases (s : ChainMonitor) :
    notify_listeners_iteration s = s ∨
      ∃ h rest, s.queue = h :: rest ∧
        notify_listeners_iteration s =
          notify_subscribers h { s with queue := rest, dequeued := s.dequeued ++ [h] } := by
  unfold notify_listeners_iteration
  split
  · cases hq : s.queue with
    | nil => exact Or.inl rfl
    | cons h rest => exact Or.inr ⟨h, rest, rfl, rfl⟩
  · exact Or.inl rfl

lemma applyAction_terminated (a : CMAction) (s : ChainMonitor)
    (hs : s.status = ChainMonitorStatus.TERMINATED) : applyAction a s = s := by
  cases a with
  | monitorChain seed => simp [applyAction_monitorChain, hs]
  | activateCall => simp [applyAction_activateCall, hs]
  | terminateCall =>
      show terminate s = s
      cases s
      simp_all [terminate]
  | pollIteration polled =>
      rw [applyAction_poll]
      unfold monitor_chain_polling_iteration
      rw [if_neg (by simp [hs])]
  | zmqIteration msg =>
      show (match monitor_chain_zmq_iteration msg s with
        | Except.ok s' => s'
        | Except.error _ => s) = s
      unfold monitor_chain_zmq_iteration
      rw [if_neg (by simp [hs])]
  | notifyIteration =>
      rw [applyAction_notify]
      unfold notify_listeners_iteration
      rw [if_neg (by simp [hs])]

lemma applyAction_max (a : CMAction) (s : ChainMonitor) :
    (applyAction a s).max_block_window_size = s.max_block_window_size := by
  cases a with
  | monitorChain seed => rw [applyAction_monitorChain]; split <;> rfl
  | activateCall => rw [applyAction_activateCall]; split <;> rfl
  | terminateCall => rfl
  | pollIteration polled =>
      rw [applyAction_poll]
      rcases poll_cases polled s with h | ⟨t, h⟩
      · rw [h]
      · rw [h]; exact enqueue_snd_max t s
  | zmqIteration msg =>
      rcases zmq_cases msg s with h | ⟨t, h⟩
      · rw [h]
      · rw [h]; exact enqueue_snd_max t s
  | notifyIteration =>
      rw [applyAction_notify]
      rcases notify_cases s with h | ⟨t, rest, _, h⟩
      · rw [h]
      · rw [h]; rfl

lemma applyAction_window (a : CMAction) (s : ChainMonitor)
    (hW : s.last_tips.length ≤ s.max_block_window_size) :
    (applyAction a s).last_tips.length ≤ s.max_block_window_size := by
  cases a with
  | monitorChain seed => rw [applyAction_monitorChain]; split <;> exact hW
  | activateCall => rw [applyAction_activateCall]; split <;> exact hW
  | terminateCall => exact hW
  | pollIteration polled =>
      rw [applyAction_poll]
      rcases poll_cases polled s with h | ⟨t, h⟩
      · rw [h]; exact hW
      · rw [h]; exact enqueue_window t s hW
  | zmqIteration msg =>
      rcases zmq_cases msg s with h | ⟨t, h⟩
      · rw [h]; exact hW
      · rw [h]; exact enqueue_window t s hW
  | notifyIteration =>
      rw [applyAction_notify]
      rcases notify_cases s with h | ⟨t, rest, _, h⟩
      · rw [h]; exact hW
      · rw [h]; exact hW

lemma run_cons (s : ChainMonitor) (a : CMAction) (acts : List CMAction) :
    run s (a :: acts) = run (applyAction a s) acts := rfl

lemma run_max (acts : List CMAction) : ∀ s : ChainMonitor,
    (run s acts).max_block_window_size = s.max_block_window_size := by
  induction acts with
  | nil => intro s; rfl
  | cons a as ih =>
      intro s
      rw [run_cons, ih (applyAction a s), applyAction_max]

lemma run_window (acts : List CMAction) : ∀ s : ChainMonitor,
    s.last_tips.length ≤ s.max_block_window_size →
    (run s acts).last_tips.length ≤ (run s acts).max_block_window_size := by
  induction acts with
  | nil => intro s h; exact h
  | cons a as ih =>
      intro s h
      rw [run_cons]
      refine ih (applyAction a s) ?_
      rw [applyAction_max]
      exact applyAction_window a s h

lemma applyAction_fanout (qs : List (List String)) (a : CMAction) (s : ChainMonitor)
    (hI : s.receiving_queues = qs.map (fun q => q ++ s.dequeued)) :
    (applyAction a s).receiving_queues =
      qs.map (fun q => q ++ (applyAction a s).dequeued) := by
  cases a with
  | monitorChain seed => rw [applyAction_monitorChain]; split <;> exact hI
  | activateCall => rw [applyAction_activateCall]; split <;> exact hI
  | terminateCall => exact hI
  | pollIteration polled =>
      rw [applyAction_poll]
      rcases poll_cases polled s with h | ⟨t, h⟩ <;> rw [h]
      · exact hI
      · rw [enqueue_snd_receiving, enqueue_snd_dequeued]; exact hI
  | zmqIteration msg =>
      rcases zmq_cases msg s with h | ⟨t, h⟩ <;> rw [h]
      · exact hI
      · rw [enqueue_snd_receiving, enqueue_snd_dequeued]; exact hI
  | notifyIteration =>
      rw [applyAction_notify]
      rcases notify_cases s with h | ⟨t, rest, _, h⟩ <;> rw [h]
      · exact hI
      · unfold notify_subscribers
        dsimp only
        rw [hI, List.map_map]
        simp [Function.comp, List.append_assoc]

lemma run_fanout (qs : List (List String)) (acts : List CMAction) :
    ∀ s : ChainMonitor,
    s.receiving_queues = qs.map (fun q => q ++ s.dequeued) →
    (run s acts).receiving_queues =
      qs.map (fun q => q ++ (run s acts).dequeued) := by
  induction acts with
  | nil => intro s h; exact h
  | cons a as ih =>
      intro s h
      rw [run_cons]
      exact ih (applyAction a s) (applyAction_fanout qs a s h)

/-! Claim theorems. -/

/-- C1: for every `ChainMonitor` state and hash, `enqueue` returns `false`
and leaves the whole state unchanged when the hash equals `best_tip` or is
in `last_tips`; otherwise it returns `true`, puts the hash on the internal
queue, appends the old `best_tip` to `last_tips` (evicting the oldest entry
when its size exceeds `max_block_window_size`), and sets `best_tip` to the
hash, leaving the receiving queues, the status and the window bound
unchanged. -/
theorem enqueue_contract (block_hash : String) (s : ChainMonitor) :
    (some block_hash = s.best_tip ∨ some block_hash ∈ s.last_tips →
      enqueue block_hash s = (false, s)) ∧
    (some block_hash ≠ s.best_tip → some block_hash ∉ s.last_tips →
      (enqueue block_hash s).1 = true ∧
      (enqueue block_hash s).2.queue = s.queue ++ [block_hash] ∧
      (enqueue block_hash s).2.best_tip = some block_hash ∧
      (enqueue block_hash s).2.last_tips =
        (if s.last_tips.length + 1 > s.max_block_window_size then
          (s.last_tips ++ [s.best_tip]).tail
        else s.last_tips ++ [s.best_tip]) ∧
      (enqueue block_hash s).2.receiving_queues = s.receiving_queues ∧
      (enqueue block_hash s).2.status = s.status ∧
      (enqueue block_hash s).2.max_block_window_size = s.max_block_window_size) := by
  constructor
  · exact enqueue_stale block_hash s
  · intro h1 h2
    rw [enqueue_fresh block_hash s h1 h2]
    refine ⟨rfl, rfl, rfl, ?_, rfl, rfl, rfl⟩
    simp only [List.length_append, List.length_cons, List.length_nil]

/-- Witness for C1 at concrete inputs: the stale case on a state whose
`best_tip` is the hash, and the fresh case on a fresh monitor. -/
theorem enqueue_contract_witness :
    (some "aa" = ({ initChainMonitor [] with best_tip := some "aa" } : ChainMonitor).best_tip ∨
      some "aa" ∈ ({ initChainMonitor [] with best_tip := some "aa" } : ChainMonitor).last_tips) ∧
    enqueue "aa" { initChainMonitor [] with best_tip := some "aa" } =
      (false, { initChainMonitor [] with best_tip := some "aa" }) ∧
    (some "bb" ≠ (initChainMonitor []).best_tip) ∧
    (enqueue "bb" (initChainMonitor [])).1 = true ∧
    (enqueue "bb" (initChainMonitor [])).2.best_tip = some "bb" :=
  ⟨Or.inl rfl,
    (enqueue_contract "aa" { initChainMonitor [] with best_tip := some "aa" }).1 (Or.inl rfl),
    by simp [initChainMonitor],
    ((enqueue_contract "bb" (initChainMonitor [])).2 (by simp [initChainMonitor])
      (by simp [initChainMonitor])).1,
    (((enqueue_contract "bb" (initChainMonitor [])).2 (by simp [initChainMonitor])
      (by simp [initChainMonitor])).2.2).1⟩

/-- C2: once the status is `TERMINATED`, no sequence of further operations
(lifecycle calls or detector/notifier loop iterations) changes the state at
all: `best_tip`, `last_tips` and the internal queue stay as they are, no
receiving queue ever gets another hash, and the hashes still sitting in the
internal queue at termination are never delivered. -/
theorem terminated_frozen (s : ChainMonitor) (acts : List CMAction)
    (hs : s.status = ChainMonitorStatus.TERMINATED) :
    run s acts = s ∧
    (run s acts).receiving_queues = s.receiving_queues ∧
    (run s acts).queue = s.queue ∧
    (run s acts).best_tip = s.best_tip ∧
    (run s acts).last_tips = s.last_tips := by
  have h : run s acts = s := by
    induction acts with
    | nil => rfl
    | cons a as ih => rw [run_cons, applyAction_terminated a s hs]; exact ih
  exact ⟨h, by rw [h], by rw [h], by rw [h], by rw [h]⟩

/-- Witness for C2: a terminated monitor with a pending hash is unchanged
by a poll, a zmq message, a notify iteration and an activate call. -/
theorem terminated_frozen_witness :
    ({ initChainMonitor [[]] with
        status := ChainMonitorStatus.TERMINATED
        queue := ["h1"] } : ChainMonitor).status = ChainMonitorStatus.TERMINATED ∧
    run { initChainMonitor [[]] with
        status := ChainMonitorStatus.TERMINATED
        queue := ["h1"] }
      [CMAction.pollIteration (some "h2"), CMAction.zmqIteration [hashblockTopic, [0]],
        CMAction.notifyIteration, CMAction.activateCall] =
      { initChainMonitor [[]] with
        status := ChainMonitorStatus.TERMINATED
        queue := ["h1"] } :=
  ⟨rfl,
    (terminated_frozen
      { initChainMonitor [[]] with
        status := ChainMonitorStatus.TERMINATED
        queue := ["h1"] }
      [CMAction.pollIteration (some "h2"), CMAction.zmqIteration [hashblockTopic, [0]],
        CMAction.notifyIteration, CMAction.activateCall] rfl).1⟩

/-- C3: in every state reachable from a freshly constructed monitor by any
sequence of operations, `last_tips` has at most `max_block_window_size`
entries, and that bound stays at its default of 10. -/
theorem last_tips_bounded (qs : List (List String)) (acts : List CMAction) :
    (run (initChainMonitor qs) acts).last_tips.length ≤ 10 ∧
    (run (initChainMonitor qs) acts).max_block_window_size = 10 := by
  have hmax : (run (initChainMonitor qs) acts).max_block_window_size = 10 := by
    rw [run_max acts (initChainMonitor qs)]
    rfl
  refine ⟨?_, hmax⟩
  have h := run_window acts (initChainMonitor qs) (by simp [initChainMonitor])
  rw [hmax] at h
  exact h

/-- C10: on a fresh monitor (`best_tip = None`, empty `last_tips`) any hash
is accepted: `enqueue` returns `true` and appends `None` to `last_tips`, so
the recency window holds the non-hash sentinel `None` as its oldest
entry. -/
theorem fresh_enqueue_appends_none (qs : List (List String)) (block_hash : String) :
    enqueue block_hash (initChainMonitor qs) =
      (true, { initChainMonitor qs with
        queue := [block_hash]
        last_tips := [none]
        best_tip := some block_hash }) := by
  rw [enqueue_fresh block_hash (initChainMonitor qs) (by simp [initChainMonitor])
    (by simp [initChainMonitor])]
  simp [initChainMonitor]

/-- C4: while the status is `ACTIVE` the notifier removes hashes from the
internal queue in FIFO order (one iteration takes the head and appends it
to every receiving queue and to the dequeue history), and over any run
from a fresh monitor every receiving queue holds exactly its initial
content followed by the dequeued hashes in dequeue order — no duplicates,
no omissions, identical order in every queue. -/
theorem notify_fifo_delivery :
    (∀ (s : ChainMonitor) (block_hash : String) (rest : List String),
      s.status = ChainMonitorStatus.ACTIVE → s.queue = block_hash :: rest →
      notify_listeners_iteration s =
        { s with
          queue := rest
          receiving_queues := s.receiving_queues.map (fun q => q ++ [block_hash])
          dequeued := s.dequeued ++ [block_hash] }) ∧
    (∀ (qs : List (List String)) (acts : List CMAction),
      (run (initChainMonitor qs) acts).receiving_queues =
        qs.map (fun q => q ++ (run (initChainMonitor qs) acts).dequeued)) := by
  constructor
  · intro s block_hash rest hs hq
    unfold notify_listeners_iteration
    rw [if_pos (by simp [hs]), hq]
    rfl
  · intro qs acts
    exact run_fanout qs acts (initChainMonitor qs) (by simp [initChainMonitor])

/-- Witness for C4: one notify iteration on an active monitor with two
queued hashes, and a run that enqueues and then delivers a hash. -/
theorem notify_fifo_delivery_witness :
    ({ initChainMonitor [["x"], []] with
        status := ChainMonitorStatus.ACTIVE
        queue := ["h1", "h2"] } : ChainMonitor).status = ChainMonitorStatus.ACTIVE ∧
    notify_listeners_iteration
      { initChainMonitor [["x"], []] with
        status := ChainMonitorStatus.ACTIVE
        queue := ["h1", "h2"] } =
      { initChainMonitor [["x"], []] with
        status := ChainMonitorStatus.ACTIVE
        queue := ["h2"]
        receiving_queues := [["x", "h1"], ["h1"]]
        dequeued := ["h1"] } ∧
    (run (initChainMonitor [["x"], []])
      [CMAction.monitorChain (some "h0"), CMAction.activateCall,
        CMAction.pollIteration (some "h1"), CMAction.notifyIteration]).receiving_queues =
      [["x"], []].map (fun q => q ++
        (run (initChainMonitor [["x"], []])
          [CMAction.monitorChain (some "h0"), CMAction.activateCall,
            CMAction.pollIteration (some "h1"), CMAction.notifyIteration]).dequeued) := by
  refine ⟨rfl, ?_, notify_fifo_delivery.2 [["x"], []] _⟩
  have h := notify_fifo_delivery.1
    { initChainMonitor [["x"], []] with
      status := ChainMonitorStatus.ACTIVE
      queue := ["h1", "h2"] } "h1" ["h2"] rfl rfl
  rw [h]
  rfl

/-- C5 counterexample: the spec claims `monitor_chain` seeds `best_tip`,
starts the detector threads, and only then sets the status to Listening;
the code sets the status first.  On a fresh idle monitor the executed
order differs from the claimed order, and its first step is the status
change. -/
theorem monitor_chain_order_cex :
    monitor_chain_trace (some "a1") (initChainMonitor []) ≠ monitor_chain_claimed_order ∧
    (monitor_chain_trace (some "a1") (initChainMonitor [])).head? =
      some MCEvent.setStatusListening := by
  constructor
  · decide
  · decide

/-- C5 (amended): `monitor_chain`, called in the Idle phase, first sets the
status to `LISTENING`, then seeds `best_tip` via the synchronous node
query, then starts the polling and zmq detector threads — so the seeding
still happens before the detector threads start, but after the phase
change is visible. -/
theorem monitor_chain_order (seed : Option String) (s : ChainMonitor)
    (hs : s.status = ChainMonitorStatus.IDLE) :
    monitor_chain seed s =
      Except.ok ({ s with status := ChainMonitorStatus.LISTENING, best_tip := seed },
        [MCEvent.setStatusListening, MCEvent.seedBestTip,
          MCEvent.startPollingThread, MCEvent.startZmqThread]) := by
  unfold monitor_chain
  rw [if_neg (by simp [hs])]

/-- Witness for C5's amended theorem on a fresh monitor. -/
theorem monitor_chain_order_witness :
    (initChainMonitor []).status = ChainMonitorStatus.IDLE ∧
    monitor_chain (some "a1") (initChainMonitor []) =
      Except.ok ({ initChainMonitor [] with
          status := ChainMonitorStatus.LISTENING
          best_tip := some "a1" },
        [MCEvent.setStatusListening, MCEvent.seedBestTip,
          MCEvent.startPollingThread, MCEvent.startZmqThread]) :=
  ⟨rfl, monitor_chain_order (some "a1") (initChainMonitor []) rfl⟩

/-- C6: `activate` outside `LISTENING` and `monitor_chain` outside `IDLE`
raise the invalid-lifecycle-transition `RuntimeError` (with the status name
in the message) and leave the status and all other state unchanged. -/
theorem lifecycle_invalid_transitions (seed : Option String) (s : ChainMonitor) :
    (s.status ≠ ChainMonitorStatus.LISTENING →
      activate s = Except.error
        ("This method can only be called in LISTENING status. Current status is " ++
          s.status.name ++ ".") ∧
      applyAction CMAction.activateCall s = s) ∧
    (s.status ≠ ChainMonitorStatus.IDLE →
      monitor_chain seed s = Except.error
        ("This method can only be called in IDLE status. Current status is " ++
          s.status.name ++ ".") ∧
      applyAction (CMAction.monitorChain seed) s = s) := by
  constructor
  · intro h
    constructor
    · unfold activate
      rw [if_pos h]
    · rw [applyAction_activateCall, if_neg h]
  · intro h
    constructor
    · unfold monitor_chain
      rw [if_pos h]
    · rw [applyAction_monitorChain, if_neg h]

/-- Witness for C6: `activate` on a fresh (Idle) monitor and a second
`monitor_chain` on a Listening monitor both raise and change nothing. -/
theorem lifecycle_invalid_transitions_witness :
    ((initChainMonitor []).status ≠ ChainMonitorStatus.LISTENING ∧
      activate (initChainMonitor []) = Except.error
        ("This method can only be called in LISTENING status. Current status is " ++
          (initChainMonitor []).status.name ++ ".") ∧
      applyAction CMAction.activateCall (initChainMonitor []) = initChainMonitor []) ∧
    (({ initChainMonitor [] with status := ChainMonitorStatus.LISTENING }
        : ChainMonitor).status ≠ ChainMonitorStatus.IDLE ∧
      monitor_chain (some "a2")
          { initChainMonitor [] with status := ChainMonitorStatus.LISTENING } =
        Except.error
          ("This method can only be called in IDLE status. Current status is " ++
            ({ initChainMonitor [] with
              status := ChainMonitorStatus.LISTENING } : ChainMonitor).status.name ++ ".") ∧
      applyAction (CMAction.monitorChain (some "a2"))
          { initChainMonitor [] with status := ChainMonitorStatus.LISTENING } =
        { initChainMonitor [] with status := ChainMonitorStatus.LISTENING }) :=
  ⟨⟨by decide,
    (lifecycle_invalid_transitions (some "a2") (initChainMonitor [])).1 (by decide)⟩,
   ⟨by decide,
    (lifecycle_invalid_transitions (some "a2")
      { initChainMonitor [] with status := ChainMonitorStatus.LISTENING }).2 (by decide)⟩⟩

/-- C7: from a freshly seeded monitor (seed tip `t 0`, window bound 10),
after eleven further pairwise distinct tips `t 1 … t 11` are accepted
sequentially by `enqueue`, the seeded tip `t 0` has been evicted from
`last_tips` (which now holds `t 1 … t 10`), so enqueueing `t 0` again is
treated as novel and returns `true`. -/
theorem first_tip_reaccepted (t : Fin 12 → String) (hinj : Function.Injective t) :
    (enqueueAll [t 1, t 2, t 3, t 4, t 5, t 6, t 7, t 8, t 9, t 10, t 11]
        (applyAction (CMAction.monitorChain (some (t 0))) (initChainMonitor []))).last_tips =
      [some (t 1), some (t 2), some (t 3), some (t 4), some (t 5),
        some (t 6), some (t 7), some (t 8), some (t 9), some (t 10)] ∧
    (enqueue (t 0)
      (enqueueAll [t 1, t 2, t 3, t 4, t 5, t 6, t 7, t 8, t 9, t 10, t 11]
        (applyAction (CMAction.monitorChain (some (t 0))) (initChainMonitor [])))).1 = true := by
  have hne : ∀ i j : Fin 12, i ≠ j → t i ≠ t j := fun i j hij h => hij (hinj h)
  have d1_0 := hne 1 0 (by decide)
  have d2_0 := hne 2 0 (by decide)
  have d2_1 := hne 2 1 (by decide)
  have d3_0 := hne 3 0 (by decide)
  have d3_1 := hne 3 1 (by decide)
  have d3_2 := hne 3 2 (by decide)
  have d4_0 := hne 4 0 (by decide)
  have d4_1 := hne 4 1 (by decide)
  have d4_2 := hne 4 2 (by decide)
  have d4_3 := hne 4 3 (by decide)
  have d5_0 := hne 5 0 (by decide)
  have d5_1 := hne 5 1 (by decide)
  have d5_2 := hne 5 2 (by decide)
  have d5_3 := hne 5 3 (by decide)
  have d5_4 := hne 5 4 (by decide)
  have d6_0 := hne 6 0 (by decide)
  have d6_1 := hne 6 1 (by decide)
  have d6_2 := hne 6 2 (by decide)
  have d6_3 := hne 6 3 (by decide)
  have d6_4 := hne 6 4 (by decide)
  have d6_5 := hne 6 5 (by decide)
  have d7_0 := hne 7 0 (by decide)
  have d7_1 := hne 7 1 (by decide)
  have d7_2 := hne 7 2 (by decide)
  have d7_3 := hne 7 3 (by decide)
  have d7_4 := hne 7 4 (by decide)
  have d7_5 := hne 7 5 (by decide)
  have d7_6 := hne 7 6 (by decide)
  have d8_0 := hne 8 0 (by decide)
  have d8_1 := hne 8 1 (by decide)
  have d8_2 := hne 8 2 (by decide)
  have d8_3 := hne 8 3 (by decide)
  have d8_4 := hne 8 4 (by decide)
  have d8_5 := hne 8 5 (by decide)
  have d8_6 := hne 8 6 (by decide)
  have d8_7 := hne 8 7 (by decide)
  have d9_0 := hne 9 0 (by decide)
  have d9_1 := hne 9 1 (by decide)
  have d9_2 := hne 9 2 (by decide)
  have d9_3 := hne 9 3 (by decide)
  have d9_4 := hne 9 4 (by decide)
  have d9_5 := hne 9 5 (by decide)
  have d9_6 := hne 9 6 (by decide)
  have d9_7 := hne 9 7 (by decide)
  have d9_8 := hne 9 8 (by decide)
  have d10_0 := hne 10 0 (by decide)
  have d10_1 := hne 10 1 (by decide)
  have d10_2 := hne 10 2 (by decide)
  have d10_3 := hne 10 3 (by decide)
  have d10_4 := hne 10 4 (by decide)
  have d10_5 := hne 10 5 (by decide)
  have d10_6 := hne 10 6 (by decide)
  have d10_7 := hne 10 7 (by decide)
  have d10_8 := hne 10 8 (by decide)
  have d10_9 := hne 10 9 (by decide)
  have d11_0 := hne 11 0 (by decide)
  have d11_1 := hne 11 1 (by decide)
  have d11_2 := hne 11 2 (by decide)
  have d11_3 := hne 11 3 (by decide)
  have d11_4 := hne 11 4 (by decide)
  have d11_5 := hne 11 5 (by decide)
  have d11_6 := hne 11 6 (by decide)
  have d11_7 := hne 11 7 (by decide)
  have d11_8 := hne 11 8 (by decide)
  have d11_9 := hne 11 9 (by decide)
  have d11_10 := hne 11 10 (by decide)
  have d0_1 := hne 0 1 (by decide)
  have d0_2 := hne 0 2 (by decide)
  have d0_3 := hne 0 3 (by decide)
  have d0_4 := hne 0 4 (by decide)
  have d0_5 := hne 0 5 (by decide)
  have d0_6 := hne 0 6 (by decide)
  have d0_7 := hne 0 7 (by decide)
  have d0_8 := hne 0 8 (by decide)
  have d0_9 := hne 0 9 (by decide)
  have d0_10 := hne 0 10 (by decide)
  have d0_11 := hne 0 11 (by decide)
  constructor <;>
    simp [enqueueAll, applyAction_monitorChain, initChainMonitor, enqueue,
      d1_0, d2_0, d2_1, d3_0, d3_1, d3_2, d4_0, d4_1, d4_2, d4_3, d5_0, d5_1, d5_2, d5_3, d5_4, d6_0, d6_1, d6_2, d6_3, d6_4, d6_5, d7_0, d7_1, d7_2, d7_3, d7_4, d7_5, d7_6, d8_0, d8_1, d8_2, d8_3, d8_4, d8_5, d8_6, d8_7, d9_0, d9_1, d9_2, d9_3, d9_4, d9_5, d9_6, d9_7, d9_8, d10_0, d10_1, d10_2, d10_3, d10_4, d10_5, d10_6, d10_7, d10_8, d10_9, d11_0, d11_1, d11_2, d11_3, d11_4, d11_5, d11_6, d11_7, d11_8, d11_9, d11_10, d0_1, d0_2, d0_3, d0_4, d0_5, d0_6, d0_7, d0_8, d0_9, d0_10, d0_11]

/-- Witness for C7 with twelve concrete distinct tips. -/
theorem first_tip_reaccepted_witness :
    Function.Injective sampleTips ∧
    (enqueueAll [sampleTips 1, sampleTips 2, sampleTips 3, sampleTips 4, sampleTips 5,
        sampleTips 6, sampleTips 7, sampleTips 8, sampleTips 9, sampleTips 10, sampleTips 11]
        (applyAction (CMAction.monitorChain (some (sampleTips 0)))
          (initChainMonitor []))).last_tips =
      [some (sampleTips 1), some (sampleTips 2), some (sampleTips 3), some (sampleTips 4),
        some (sampleTips 5), some (sampleTips 6), some (sampleTips 7), some (sampleTips 8),
        some (sampleTips 9), some (sampleTips 10)] ∧
    (enqueue (sampleTips 0)
      (enqueueAll [sampleTips 1, sampleTips 2, sampleTips 3, sampleTips 4, sampleTips 5,
        sampleTips 6, sampleTips 7, sampleTips 8, sampleTips 9, sampleTips 10, sampleTips 11]
        (applyAction (CMAction.monitorChain (some (sampleTips 0)))
          (initChainMonitor [])))).1 = true := by
  refine ⟨by decide, ?_, ?_⟩
  · exact (first_tip_reaccepted sampleTips (by decide)).1
  · exact (first_tip_reaccepted sampleTips (by decide)).2

/-- C8 counterexample: the claim says a truncated feed message (fewer than
two parts) is discarded silently without raising; on a one-part
`hashblock` message the zmq loop body instead raises an `IndexError`
(reading `msg[1]`), killing the iteration. -/
theorem zmq_truncated_raises :
    monitor_chain_zmq_iteration [hashblockTopic]
      { initChainMonitor [] with status := ChainMonitorStatus.LISTENING } =
      Except.error () ∧
    monitor_chain_zmq_iteration []
      { initChainMonitor [] with status := ChainMonitorStatus.LISTENING } =
      Except.error () := ⟨rfl, rfl⟩

/-- C8 (amended): while not terminated, a feed message with at least two
parts and a topic other than `b"hashblock"` is discarded silently (the
state is returned unchanged, no exception) and the loop continues; but a
truncated message with fewer than two parts raises an `IndexError` rather
than being discarded. -/
theorem zmq_malformed_handling (s : ChainMonitor) (topic body : List Nat)
    (rest msg : List (List Nat)) (hs : s.status ≠ ChainMonitorStatus.TERMINATED) :
    (topic ≠ hashblockTopic →
      monitor_chain_zmq_iteration (topic :: body :: rest) s = Except.ok s) ∧
    (msg.length < 2 →
      monitor_chain_zmq_iteration msg s = Except.error ()) := by
  constructor
  · intro ht
    unfold monitor_chain_zmq_iteration
    rw [if_pos hs]
    simp [ht]
  · intro hlen
    unfold monitor_chain_zmq_iteration
    rw [if_pos hs]
    match msg, hlen with
    | [], _ => rfl
    | [x], _ => rfl

/-- Witness for C8's amended theorem: a wrong-topic two-part message is
ignored, a one-part message raises. -/
theorem zmq_malformed_handling_witness :
    (initChainMonitor [[]]).status ≠ ChainMonitorStatus.TERMINATED ∧
    ([104, 97, 115, 104, 116, 120] : List Nat) ≠ hashblockTopic ∧
    monitor_chain_zmq_iteration [[104, 97, 115, 104, 116, 120], [0, 1]]
      (initChainMonitor [[]]) = Except.ok (initChainMonitor [[]]) ∧
    ([[0, 1]] : List (List Nat)).length < 2 ∧
    monitor_chain_zmq_iteration [[0, 1]] (initChainMonitor [[]]) = Except.error () :=
  ⟨by decide, by decide,
    (zmq_malformed_handling (initChainMonitor [[]]) [104, 97, 115, 104, 116, 120]
      [0, 1] [] [[0, 1]] (by decide)).1 (by decide),
    by decide,
    (zmq_malformed_handling (initChainMonitor [[]]) [104, 97, 115, 104, 116, 120]
      [0, 1] [] [[0, 1]] (by decide)).2 (by decide)⟩

/-- C9: during bootstrap from persisted state, if the watcher's and
responder's persisted tips are identical the ancestor search and
missed-block query run exactly once (one `findLCA`, one `getMissed` in the
call log) and the single result is reused for both consumers; if they
differ, each consumer's reconciliation is computed from its own pair of
node queries. -/
theorem bootstrap_shared_reconciliation (bp : BlockProcessorModel)
    (last_block_watcher last_block_responder : Option String) :
    (last_block_watcher = last_block_responder →
      (bootstrap_reconcile bp last_block_watcher last_block_responder).missed_blocks_responder =
        (bootstrap_reconcile bp last_block_watcher last_block_responder).missed_blocks_watcher ∧
      (bootstrap_reconcile bp last_block_watcher last_block_responder).dropped_txs_responder =
        (bootstrap_reconcile bp last_block_watcher last_block_responder).dropped_txs_watcher ∧
      (bootstrap_reconcile bp last_block_watcher last_block_responder).calls =
        [BPCall.findLCA last_block_watcher,
          BPCall.getMissed (bp.find_last_common_ancestor last_block_watcher).1]) ∧
    (last_block_watcher ≠ last_block_responder →
      (bootstrap_reconcile bp last_block_watcher last_block_responder).missed_blocks_watcher =
        bp.get_missed_blocks (bp.find_last_common_ancestor last_block_watcher).1 ∧
      (bootstrap_reconcile bp last_block_watcher last_block_responder).missed_blocks_responder =
        bp.get_missed_blocks (bp.find_last_common_ancestor last_block_responder).1 ∧
      (bootstrap_reconcile bp last_block_watcher last_block_responder).dropped_txs_responder =
        (bp.find_last_common_ancestor last_block_responder).2 ∧
      (bootstrap_reconcile bp last_block_watcher last_block_responder).calls =
        [BPCall.findLCA last_block_watcher,
          BPCall.getMissed (bp.find_last_common_ancestor last_block_watcher).1,
          BPCall.findLCA last_block_responder,
          BPCall.getMissed (bp.find_last_common_ancestor last_block_responder).1]) := by
  constructor
  · intro h
    simp [bootstrap_reconcile, h]
  · intro h
    simp [bootstrap_reconcile, h]

/-- Witness for C9: equal persisted tips share one computation; different
tips get independent ones. -/
theorem bootstrap_shared_reconciliation_witness :
    ((some "x" : Option String) = some "x" ∧
      (bootstrap_reconcile ⟨fun _ => (some "anc", ["tx1"]), fun _ => ["m1"]⟩
        (some "x") (some "x")).missed_blocks_responder =
        (bootstrap_reconcile ⟨fun _ => (some "anc", ["tx1"]), fun _ => ["m1"]⟩
          (some "x") (some "x")).missed_blocks_watcher ∧
      (bootstrap_reconcile ⟨fun _ => (some "anc", ["tx1"]), fun _ => ["m1"]⟩
        (some "x") (some "x")).calls =
        [BPCall.findLCA (some "x"), BPCall.getMissed (some "anc")]) ∧
    ((some "x" : Option String) ≠ some "y" ∧
      (bootstrap_reconcile ⟨fun _ => (some "anc", ["tx1"]), fun _ => ["m1"]⟩
        (some "x") (some "y")).calls =
        [BPCall.findLCA (some "x"), BPCall.getMissed (some "anc"),
          BPCall.findLCA (some "y"), BPCall.getMissed (some "anc")]) := by
  constructor
  · refine ⟨rfl, ?_, ?_⟩
    · exact ((bootstrap_shared_reconciliation
        ⟨fun _ => (some "anc", ["tx1"]), fun _ => ["m1"]⟩ (some "x") (some "x")).1 rfl).1
    · exact ((bootstrap_shared_reconciliation
        ⟨fun _ => (some "anc", ["tx1"]), fun _ => ["m1"]⟩ (some "x") (some "x")).1 rfl).2.2
  · refine ⟨by decide, ?_⟩
    exact ((bootstrap_shared_reconciliation
      ⟨fun _ => (some "anc", ["tx1"]), fun _ => ["m1"]⟩ (some "x") (some "y")).2
        (by decide)).2.2.2
